import Mathlib

set_option linter.unusedVariables false

/-! Verification of the airflow-gitlab-changed-detection core: a shallow
embedding of the commit-query client (`plugins/utils/gitlab.py`), the result
model (`plugins/utils/gitlab_result.py`) and the change-detection trigger
(`plugins/triggers/gitlab_trigger.py`), followed by theorems about the
embedded code. -/

/-- Python values produced by `json.loads`: a JSON array, a string, a number,
or `None`; commit records are opaque beyond their position in a list, so this
coarse grammar suffices for every branch the source takes. -/
inductive Json where
  | arr : List Json → Json
  | str : String → Json
  | num : Int → Json
  | null : Json

mutual

/-- Python `str()` of a parsed JSON value, as interpolated by
`"result is not valid. result: {0}".format(text_json)` (with the braces of the
format spelled out here as an index to keep the quotation literal). -/
def Json.pyStr : Json → String
  | .arr xs => "[" ++ pyStrList xs ++ "]"
  | .str s => "'" ++ s ++ "'"
  | .num n => toString n
  | .null => "None"

/-- Comma-joined rendering of a list of JSON values, for `Json.pyStr`. -/
def pyStrList : List Json → String
  | [] => ""
  | [x] => Json.pyStr x
  | x :: y :: xs => Json.pyStr x ++ ", " ++ pyStrList (y :: xs)

end

/-- Whether a parsed JSON value is a Python `list`, i.e. the
`type(text_json) is list` test in `Gitlab.__process_commit_response`. -/
def Json.isArr : Json → Bool
  | .arr _ => true
  | _ => false

/-- Python exception values the embedded code raises or observes: `KeyError`
from a dict subscript, `JSONDecodeError` from `json.loads`, and any
transport-level exception from the HTTP libraries (timeout, unreachable host,
decode failure). -/
inductive PyExc where
  | keyError : String → PyExc
  | jsonDecodeError : String → PyExc
  | transport : String → PyExc
deriving DecidableEq

/-- Python `str()` of an exception; `str` of a `KeyError` is the repr of its
key, quotes included. -/
def PyExc.str : PyExc → String
  | .keyError k => "'" ++ k ++ "'"
  | .jsonDecodeError m => m
  | .transport m => m

/-- The `CommitResult` class of `gitlab_result.py`, flattened together with
its `GitlabResult` base class: `__status`, `__message`, `__success` from the
base and the private `__commits` list (called `commits_data` here because the
public `commits` property takes the source name). `__commits` may hold `None`
when the constructor is called with `commits=None`, hence the `Option`. -/
structure CommitResult where
  status : Int
  message : Option String
  success : Bool
  commits_data : Option (List Json)

/-- The `CommitResult.commits` property: `if not self.__commits: return []`
then `return self.__commits`; Python `None` and the empty list are both
falsy, so both give a fresh empty list. -/
def CommitResult.commits (c : CommitResult) : List Json :=
  match c.commits_data with
  | none => []
  | some xs => if xs.isEmpty then [] else xs

/-- The plain Python dict built by the `Gitlab` class for a commit-query
outcome. Every field is wrapped in an outer `Option` recording whether the
key is present at all: `Gitlab.__get_default_result()` creates only
`success`, `message` and `status`, and the `commits` key appears only when
`Gitlab.__set_result` receives a `commits` keyword argument. The `message`
value may itself be Python `None`, and the `commits` value is modelled as
possibly `None` to mirror the `CommitResult` constructor's parameter type. -/
structure ResultDict where
  status : Option Int
  message : Option (Option String)
  success : Option Bool
  commits : Option (Option (List Json))

/-- `Gitlab.__get_default_result` as called in the source, always with no
keyword arguments: `{'success': True, 'message': None, 'status': 200}` and no
`commits` key. -/
def get_default_result : ResultDict :=
  ⟨some 200, some none, some true, none⟩

/-- `Gitlab.__set_result`: overwrites `status`, `message` and
`success = success and status == 200` in the given dict, then applies
`result.update(kwargs)`; `commitsKw` is the optional `commits` keyword
argument (outer `none` = keyword not passed, so the dict keeps whatever
`commits` entry it had). -/
def set_result (r : ResultDict) (status : Int) (success : Bool)
    (message : Option String) (commitsKw : Option (Option (List Json))) :
    ResultDict :=
  ⟨some status, some message, some (success && (status == 200)),
   match commitsKw with
   | some v => some v
   | none => r.commits⟩

/-- `Gitlab.get_exception_result`: the default dict updated with
`success=False`, `status=600`, `message=str(exception)`; note that no
`commits` key is added. -/
def get_exception_result (e : PyExc) : ResultDict :=
  set_result get_default_result 600 false (some e.str) none

/-- `CommitResult.result_from_dict`: subscripts the four keys in the order
`status`, `message`, `success`, `commits`; a missing key raises `KeyError`
at the first absent subscript. -/
def CommitResult.result_from_dict (r : ResultDict) :
    Except PyExc CommitResult :=
  match r.status with
  | none => .error (.keyError "status")
  | some st =>
    match r.message with
    | none => .error (.keyError "message")
    | some msg =>
      match r.success with
      | none => .error (.keyError "success")
      | some suc =>
        match r.commits with
        | none => .error (.keyError "commits")
        | some cs => .ok ⟨st, msg, suc, cs⟩

/-- The `Gitlab` client configuration: base `url`, optional `private_token`,
`connection_timeout`, and the `api_url` computed once in `__init__` by the
stdlib call `urllib.parse.urljoin(url, '/api/v4/')`, modelled as a stored
field because `urljoin` is library code outside this repository. -/
structure Gitlab where
  url : String
  private_token : Option String
  connection_timeout : Int
  api_url : String

/-- The `Gitlab.STATUS_OK` class constant. -/
def Gitlab.STATUS_OK : Int := 200

/-- The `Gitlab.STATUS_ERROR` class constant, the 600 failure sentinel. -/
def Gitlab.STATUS_ERROR : Int := 600

/-- Python truthiness of an optional string, for the `if since:` and
`if self.private_token:` guards: `None` and the empty string are falsy. -/
def strTruthy : Option String → Bool
  | none => false
  | some s => !s.isEmpty

/-- `Gitlab.__get_commit_url`: appends the
`projects/{id}/repository/commits?ref_name={branch}` path to `api_url`
(inserting a slash unless `api_url` already ends in one), then the `since`
filter and the `private_token` parameter when those are truthy. -/
def Gitlab.get_commit_url (g : Gitlab) (project_id : Int)
    (branch_name : String) (since : Option String) : String :=
  let url := g.api_url
  let url := url ++ (if url.endsWith "/" then "" else "/") ++
    "projects/" ++ toString project_id ++ "/repository/commits?ref_name=" ++
    branch_name
  let url := if strTruthy since then url ++ "&since=" ++ since.getD "" else url
  if strTruthy g.private_token then
    url ++ "&private_token=" ++ g.private_token.getD ""
  else url

/-- `Gitlab.__process_commit_response`: on status 200 it parses the body —
`json.loads` may raise, which the `body` argument records as an `Except` —
and branches on whether the parsed value is a Python list; on any other
status it builds the flattened status-600 dict without touching the body.
The returned `Except` is `.error` when a Python exception escapes the
function. -/
def process_commit_response (status : Int) (body : Except PyExc Json) :
    Except PyExc ResultDict :=
  let result := get_default_result
  if status = Gitlab.STATUS_OK then
    match body with
    | .error e => .error e
    | .ok text_json =>
      match text_json with
      | .arr xs => .ok (set_result result 200 true none (some (some xs)))
      | j =>
        .ok (set_result result 200 false
          (some ("result is not valid. result: " ++ j.pyStr))
          (some (some [])))
  else
    .ok (set_result result Gitlab.STATUS_ERROR true
      (some "Gitlab response is not succeed") none)

/-- The observable outcome of one HTTP GET against a commit-list URL: either
a response, carrying the numeric status and the outcome of decoding and
`json.loads`-ing its body text, or a local/transport exception raised before
a response was obtained. -/
inductive HttpOutcome where
  | response : Int → Except PyExc Json → HttpOutcome
  | exc : PyExc → HttpOutcome

/-- `Gitlab.sync_get_commits`: builds the URL, performs the blocking
`requests.get` (the `remote` argument models the network plus
`resp.content.decode('utf')` and the subsequent `json.loads`), processes the
response and rehydrates the result dict inside the `try` block; any exception
from the `try` block is handled by returning
`result_from_dict(get_exception_result(e))` — which may itself raise. -/
def Gitlab.sync_get_commits (g : Gitlab) (remote : String → HttpOutcome)
    (project_id : Int) (branch_name : String) (since : Option String) :
    Except PyExc CommitResult :=
  let url := g.get_commit_url project_id branch_name since
  let tryBlock : Except PyExc CommitResult :=
    match remote url with
    | .exc e => .error e
    | .response status body =>
      match process_commit_response status body with
      | .error e => .error e
      | .ok d => CommitResult.result_from_dict d
  match tryBlock with
  | .ok r => .ok r
  | .error e => CommitResult.result_from_dict (get_exception_result e)

/-- `Gitlab.async_get_commits`: builds the same URL, performs the GET through
an `aiohttp` session (the `remote` argument models the awaited response,
`resp.text()` and the subsequent `json.loads`), processes the response and
rehydrates the result dict inside the `try` block; any exception from the
`try` block is handled by returning
`result_from_dict(get_exception_result(e))` — which may itself raise. -/
def Gitlab.async_get_commits (g : Gitlab) (remote : String → HttpOutcome)
    (project_id : Int) (branch_name : String) (since : Option String) :
    Except PyExc CommitResult :=
  let url := g.get_commit_url project_id branch_name since
  let tryBlock : Except PyExc CommitResult :=
    match remote url with
    | .exc e => .error e
    | .response status body =>
      match process_commit_response status body with
      | .error e => .error e
      | .ok d => CommitResult.result_from_dict d
  match tryBlock with
  | .ok r => .ok r
  | .error e => CommitResult.result_from_dict (get_exception_result e)

/-- The `GitlabRepoChangedTrigger` instance state: the five
constructor-stored arguments plus the `runs` attempt counter, which
`__init__` sets to 0 and the `run` loop increments. The `projects` dict of
project id to branch is modelled as an association list in the dict's
iteration order; Python dict keys are distinct, which theorems take as an
explicit hypothesis where they need it. -/
structure GitlabRepoChangedTrigger where
  gitlab_conn_id : String
  projects : List (Int × String)
  changes_since : String
  check_runs : Int
  check_interval : Int
  runs : Int
deriving DecidableEq

/-- `GitlabRepoChangedTrigger.__init__`: stores the five arguments and sets
`self.runs = 0`. -/
def mkTrigger (gitlab_conn_id : String) (projects : List (Int × String))
    (changes_since : String) (check_runs : Int) (check_interval : Int) :
    GitlabRepoChangedTrigger :=
  ⟨gitlab_conn_id, projects, changes_since, check_runs, check_interval, 0⟩

/-- The keyword dictionary in the second component of
`GitlabRepoChangedTrigger.serialize`; it has no entry for `runs`. -/
structure SerializedTrigger where
  gitlab_conn_id : String
  projects : List (Int × String)
  changes_since : String
  check_runs : Int
  check_interval : Int
deriving DecidableEq

/-- `GitlabRepoChangedTrigger.serialize`: the classpath string and the five
constructor keyword arguments. -/
def GitlabRepoChangedTrigger.serialize (t : GitlabRepoChangedTrigger) :
    String × SerializedTrigger :=
  ("triggers.gitlab_trigger.GitlabRepoChangedTrigger",
   ⟨t.gitlab_conn_id, t.projects, t.changes_since, t.check_runs,
    t.check_interval⟩)

/-- Rehydration of a serialized trigger: the host scheduler instantiates the
class named by the first serialize component with the serialized keyword
arguments, i.e. it calls `__init__` on exactly those five values. -/
def rehydrate (k : SerializedTrigger) : GitlabRepoChangedTrigger :=
  mkTrigger k.gitlab_conn_id k.projects k.changes_since k.check_runs
    k.check_interval

/-- Oracle for the values the awaited `gitlab.async_get_commits` calls
produce during the run loop: given the current value of `self.runs` (which
identifies the cycle), the project id and the branch, the `CommitResult` the
call returns. A call that raised instead of returning would abort the
generator before any event, so the run-loop theorems quantify over sessions
whose queries all return. -/
abbrev QueryOracle := Int → Int → String → CommitResult

/-- The `for project_id, branch in self.projects.items()` body inside one
cycle of `GitlabRepoChangedTrigger.run`: query each project and append
`project_id` to `changed_repos` when the result has `success` and
`len(commits_result.commits) > 0`. -/
def runCycle (query : Int → String → CommitResult)
    (changed_repos : List Int) : List (Int × String) → List Int
  | [] => changed_repos
  | (project_id, branch) :: rest =>
    let commits_result := query project_id branch
    if commits_result.success && decide (0 < commits_result.commits.length)
    then runCycle query (changed_repos ++ [project_id]) rest
    else runCycle query changed_repos rest

/-- One iteration of the `while True` loop in
`GitlabRepoChangedTrigger.run`: increment `self.runs`, fan out over the
projects, and yield `changed_repos` as a `TriggerEvent` when it is non-empty
or `self.runs >= self.check_runs`. The loop body has no `break` or `return`
after the `yield`, so the step returns the successor state alongside the
optional event and the loop continues either way. -/
def stepCycle (oracle : QueryOracle) (t : GitlabRepoChangedTrigger)
    (changed_repos : List Int) :
    (GitlabRepoChangedTrigger × List Int) × Option (List Int) :=
  let runs1 := t.runs + 1
  let changed1 := runCycle (oracle runs1) changed_repos t.projects
  let t1 : GitlabRepoChangedTrigger :=
    ⟨t.gitlab_conn_id, t.projects, t.changes_since, t.check_runs,
     t.check_interval, runs1⟩
  if 0 < changed1.length ∨ t.check_runs ≤ runs1 then
    ((t1, changed1), some changed1)
  else ((t1, changed1), none)

/-- The sequence of `TriggerEvent` payloads yielded when the `run` generator
is driven for the given number of cycles from the state
`(t, changed_repos)`. -/
def runEvents (oracle : QueryOracle) (t : GitlabRepoChangedTrigger)
    (changed_repos : List Int) : Nat → List (List Int)
  | 0 => []
  | n + 1 =>
    match stepCycle oracle t changed_repos with
    | ((t1, changed1), some ev) => ev :: runEvents oracle t1 changed1 n
    | ((t1, changed1), none) => runEvents oracle t1 changed1 n

/-- The first `TriggerEvent` payload the `run` loop yields within the given
number of cycles: the terminal emission of one polling session in the sense
of the spec's glossary. -/
def runSession (oracle : QueryOracle) (t : GitlabRepoChangedTrigger)
    (changed_repos : List Int) : Nat → Option (List Int)
  | 0 => none
  | n + 1 =>
    match stepCycle oracle t changed_repos with
    | (_, some ev) => some ev
    | ((t1, changed1), none) => runSession oracle t1 changed1 n

/-! Concrete fixtures used by several witnesses. -/

/-- A concrete client configuration, with `api_url` as `urljoin` computes it
for the base URL. -/
def gExample : Gitlab :=
  ⟨"http://gitlab.example", none, 10, "http://gitlab.example/api/v4/"⟩

/-- A concrete unsuccessful query result, as a transport failure would be
reported if the result dict carried a `commits` key. -/
def failCommitResult : CommitResult :=
  ⟨600, some "timed out", false, some []⟩

/-- A trigger watching one project with a cycle budget of 1. -/
def budgetOneTrigger : GitlabRepoChangedTrigger :=
  mkTrigger "gitlab_conn_id" [(1, "master")] "2024-01-01T00:00:00Z" 1 60

/-! Theorems for the claims. -/

/-- C1: the claim says the run loop terminates — emits the accumulated
ChangeSet and stops cycling — as soon as, at the end of a cycle, the
ChangeSet is non-empty or the attempt counter has reached the budget, and
that with no successful non-empty query it runs exactly B cycles and stops.
The embedded loop does emit the empty ChangeSet at the end of cycle B = 1
(second conjunct), but it does not stop: driven for two cycles it runs a
second cycle and yields a second event (first conjunct), because the loop
body has no `break` or `return` after the `yield`. -/
theorem run_loop_keeps_cycling_after_budget :
    runEvents (fun _ _ _ => failCommitResult) budgetOneTrigger [] 2 =
      [[], []] ∧
    runSession (fun _ _ _ => failCommitResult) budgetOneTrigger [] 1 =
      some [] := by
  decide

/-- C2: for a query in which a transport exception is raised, the claim says
the client returns success=false, status 600, message = exception text, empty
commits. The embedded code instead raises: `get_exception_result` builds the
status-600 dict without a `commits` key (first conjunct), so
`result_from_dict` raises `KeyError('commits')`, which propagates out of both
`sync_get_commits` and `async_get_commits` (remaining conjuncts). -/
theorem exception_path_raises_keyerror :
    ∀ (g : Gitlab) (project_id : Int) (branch_name : String)
      (since : Option String) (e : PyExc),
      get_exception_result e = ⟨some 600, some (some e.str), some false, none⟩ ∧
      g.sync_get_commits (fun _ => .exc e) project_id branch_name since =
        .error (.keyError "commits") ∧
      g.async_get_commits (fun _ => .exc e) project_id branch_name since =
        .error (.keyError "commits") :=
  fun _ _ _ _ _ => ⟨rfl, rfl, rfl⟩

/-- C3: for a non-200 response the claim says the client returns an error
result with status forced to 600, the fixed message, success=false and empty
commits. The embedded `__process_commit_response` does build the flattened
status-600 dict (first conjunct) — but without a `commits` key, so
`result_from_dict` raises `KeyError('commits')` inside the `try` block, the
handler's second `result_from_dict` raises it again, and both clients
propagate the exception instead of returning (remaining conjuncts). -/
theorem non_ok_status_raises_keyerror :
    ∀ (g : Gitlab) (project_id : Int) (branch_name : String)
      (since : Option String) (status : Int) (body : Except PyExc Json),
      status ≠ 200 →
      process_commit_response status body =
        .ok ⟨some 600, some (some "Gitlab response is not succeed"),
             some false, none⟩ ∧
      g.sync_get_commits (fun _ => .response status body) project_id
        branch_name since = .error (.keyError "commits") ∧
      g.async_get_commits (fun _ => .response status body) project_id
        branch_name since = .error (.keyError "commits") := by
  intro g project_id branch_name since status body h
  have hp : process_commit_response status body =
      .ok ⟨some 600, some (some "Gitlab response is not succeed"),
           some false, none⟩ := by
    unfold process_commit_response
    rw [if_neg (by exact h)]
    rfl
  refine ⟨hp, ?_, ?_⟩
  · simp only [Gitlab.sync_get_commits, hp]
    rfl
  · simp only [Gitlab.async_get_commits, hp]
    rfl

/-- Witness for C3 at a concrete 500 response. -/
theorem non_ok_status_raises_keyerror_witness :
    (500 : Int) ≠ 200 ∧
    (process_commit_response 500 (.ok .null) =
       .ok ⟨some 600, some (some "Gitlab response is not succeed"),
            some false, none⟩ ∧
     gExample.sync_get_commits (fun _ => .response 500 (.ok .null)) 1
       "master" none = .error (.keyError "commits") ∧
     gExample.async_get_commits (fun _ => .response 500 (.ok .null)) 1
       "master" none = .error (.keyError "commits")) :=
  ⟨by decide,
   non_ok_status_raises_keyerror gExample 1 "master" none 500 (.ok .null)
     (by decide)⟩

/-- C4: the claim says success=true exactly on a 200 response whose body is a
JSON list, and that every other status, parse failure or exception yields a
returned result with success=false and empty commits. The positive half is
what the embedded code does (first conjunct: 200 + list gives success=true
with the parsed commits); but a parse failure under status 200 does not yield
a result at all — the `JSONDecodeError` is caught, `get_exception_result`
omits the `commits` key, and both clients raise `KeyError('commits')`
(remaining conjuncts). -/
theorem success_iff_ok_and_list_violated :
    ∀ (g : Gitlab) (project_id : Int) (branch_name : String)
      (since : Option String) (m : String) (xs : List Json),
      g.sync_get_commits (fun _ => .response 200 (.ok (.arr xs))) project_id
        branch_name since = .ok ⟨200, none, true, some xs⟩ ∧
      g.sync_get_commits (fun _ => .response 200 (.error (.jsonDecodeError m)))
        project_id branch_name since = .error (.keyError "commits") ∧
      g.async_get_commits (fun _ => .response 200 (.error (.jsonDecodeError m)))
        project_id branch_name since = .error (.keyError "commits") :=
  fun _ _ _ _ _ _ => ⟨rfl, rfl, rfl⟩

/-- C6: the claim says every field needed to resume, including the attempt
counter `runs`, round-trips through `serialize`. Rehydrating any serialized
trigger resets `runs` to 0 while the other five fields survive (first
conjunct), so a trigger suspended mid-session with `runs = 2` does not
round-trip (second conjunct): `serialize` has no entry for `runs`. -/
theorem serialize_loses_runs :
    (∀ t : GitlabRepoChangedTrigger,
      (rehydrate (t.serialize).2).runs = 0 ∧
      (rehydrate (t.serialize).2).gitlab_conn_id = t.gitlab_conn_id ∧
      (rehydrate (t.serialize).2).projects = t.projects ∧
      (rehydrate (t.serialize).2).changes_since = t.changes_since ∧
      (rehydrate (t.serialize).2).check_runs = t.check_runs ∧
      (rehydrate (t.serialize).2).check_interval = t.check_interval) ∧
    rehydrate
        ((⟨"gitlab_conn_id", [(1, "master")], "2024-01-01T00:00:00Z", 5, 60,
           2⟩ : GitlabRepoChangedTrigger).serialize).2 ≠
      ⟨"gitlab_conn_id", [(1, "master")], "2024-01-01T00:00:00Z", 5, 60, 2⟩ :=
  ⟨fun _ => ⟨rfl, rfl, rfl, rfl, rfl, rfl⟩, by decide⟩

/-- C7: for the same client configuration, the same input triple and the same
remote outcome, the blocking `sync_get_commits` and the suspension-based
`async_get_commits` produce field-for-field identical results (including
identical raised exceptions, modelled by the `Except` error case). -/
theorem sync_async_get_commits_agree :
    ∀ (g : Gitlab) (remote : String → HttpOutcome) (project_id : Int)
      (branch_name : String) (since : Option String),
      g.sync_get_commits remote project_id branch_name since =
        g.async_get_commits remote project_id branch_name since :=
  fun _ _ _ _ _ => rfl

/-- C8: for a 200 response whose body parses but is not a JSON list, both
clients return (do not raise) a result with success=false, an empty commit
list, and the original status 200 preserved rather than the 600 sentinel. -/
theorem ok_nonlist_preserves_200 :
    ∀ (g : Gitlab) (project_id : Int) (branch_name : String)
      (since : Option String) (j : Json),
      j.isArr = false →
      g.sync_get_commits (fun _ => .response 200 (.ok j)) project_id
        branch_name since =
        .ok ⟨200, some ("result is not valid. result: " ++ j.pyStr), false,
             some []⟩ ∧
      g.async_get_commits (fun _ => .response 200 (.ok j)) project_id
        branch_name since =
        .ok ⟨200, some ("result is not valid. result: " ++ j.pyStr), false,
             some []⟩ ∧
      (CommitResult.mk 200
        (some ("result is not valid. result: " ++ j.pyStr)) false
        (some [])).commits = [] := by
  intro g project_id branch_name since j h
  cases j with
  | arr xs => simp [Json.isArr] at h
  | str s => exact ⟨rfl, rfl, rfl⟩
  | num n => exact ⟨rfl, rfl, rfl⟩
  | null => exact ⟨rfl, rfl, rfl⟩

/-- Witness for C8 at a 200 response whose body is the JSON value null. -/
theorem ok_nonlist_preserves_200_witness :
    Json.isArr .null = false ∧
    (gExample.sync_get_commits (fun _ => .response 200 (.ok .null)) 1
       "master" none =
       .ok ⟨200, some ("result is not valid. result: " ++ Json.pyStr .null),
            false, some []⟩ ∧
     gExample.async_get_commits (fun _ => .response 200 (.ok .null)) 1
       "master" none =
       .ok ⟨200, some ("result is not valid. result: " ++ Json.pyStr .null),
            false, some []⟩ ∧
     (CommitResult.mk 200
       (some ("result is not valid. result: " ++ Json.pyStr .null)) false
       (some [])).commits = []) :=
  ⟨rfl, ok_nonlist_preserves_200 gExample 1 "master" none .null rfl⟩

/-- C9: rehydrating a `CommitResult` from a payload dict fails fast with a
`KeyError` when any of the four fields is missing (first conjunct), and when
all four are present it deterministically constructs the result from exactly
those field values (second conjunct). -/
theorem result_from_dict_validates :
    ∀ d : ResultDict,
      ((d.status = none ∨ d.message = none ∨ d.success = none ∨
          d.commits = none) →
        ∃ k, CommitResult.result_from_dict d = .error (.keyError k)) ∧
      (∀ st msg suc cs, d = ⟨some st, some msg, some suc, some cs⟩ →
        CommitResult.result_from_dict d = .ok ⟨st, msg, suc, cs⟩) := by
  intro d
  refine ⟨?_, fun st msg suc cs h => by rw [h]; rfl⟩
  intro h
  obtain ⟨s, m, su, cs⟩ := d
  cases s with
  | none => exact ⟨"status", rfl⟩
  | some st =>
    cases m with
    | none => exact ⟨"message", rfl⟩
    | some mv =>
      cases su with
      | none => exact ⟨"success", rfl⟩
      | some sv =>
        cases cs with
        | none => exact ⟨"commits", rfl⟩
        | some cv => rcases h with h | h | h | h <;> simp at h

/-- Witness for C9: a dict missing its status key raises a KeyError, and a
complete dict rehydrates to exactly its four field values. -/
theorem result_from_dict_validates_witness :
    ((⟨none, some none, some true, some (some [])⟩ : ResultDict).status =
        none ∨
      (⟨none, some none, some true, some (some [])⟩ : ResultDict).message =
        none ∨
      (⟨none, some none, some true, some (some [])⟩ : ResultDict).success =
        none ∨
      (⟨none, some none, some true, some (some [])⟩ : ResultDict).commits =
        none) ∧
    (∃ k, CommitResult.result_from_dict
        ⟨none, some none, some true, some (some [])⟩ =
        .error (.keyError k)) ∧
    CommitResult.result_from_dict
        ⟨some 200, some none, some true, some (some [])⟩ =
      .ok ⟨200, none, true, some []⟩ :=
  ⟨Or.inl rfl,
   (result_from_dict_validates ⟨none, some none, some true, some (some [])⟩).1
     (Or.inl rfl),
   (result_from_dict_validates
       ⟨some 200, some none, some true, some (some [])⟩).2
     200 none true (some []) rfl⟩

/-- C10: the `commits` accessor never yields the stored Python `None`: it
returns the stored list when that is non-empty and the empty list otherwise,
i.e. it always equals the stored field with `None` defaulted to the empty
list, so callers can always take its length. -/
theorem commits_never_none :
    ∀ c : CommitResult, c.commits = c.commits_data.getD [] := by
  intro c
  obtain ⟨st, m, su, cd⟩ := c
  cases cd with
  | none => rfl
  | some xs => cases xs with
    | nil => rfl
    | cons x xs => rfl

/-! Helper lemmas about the run-loop embedding, shared by the ChangeSet
invariants. -/

/-- One cycle's fan-out only ever appends to `changed_repos`, and every
appended project id comes from a configured pair whose query result this
cycle was successful with a non-empty commit list. -/
theorem runCycle_extends (q : Int → String → CommitResult) :
    ∀ (prs : List (Int × String)) (changed : List Int),
      ∃ tail, runCycle q changed prs = changed ++ tail ∧
        ∀ pid ∈ tail, ∃ br, (pid, br) ∈ prs ∧
          (q pid br).success = true ∧ (q pid br).commits ≠ [] := by
  intro prs
  induction prs with
  | nil =>
    intro changed
    exact ⟨[], by simp [runCycle], by simp⟩
  | cons pb rest ih =>
    intro changed
    obtain ⟨pid, br⟩ := pb
    simp only [runCycle]
    by_cases hc :
        ((q pid br).success && decide (0 < (q pid br).commits.length)) = true
    · obtain ⟨tail, heq, hmem⟩ := ih (changed ++ [pid])
      refine ⟨pid :: tail, ?_, ?_⟩
      · rw [if_pos hc, heq, List.append_assoc]
        rfl
      · intro p hp
        rcases List.mem_cons.mp hp with h1 | h1
        · subst h1
          simp only [Bool.and_eq_true, decide_eq_true_eq] at hc
          refine ⟨br, List.mem_cons_self _ _, hc.1, ?_⟩
          exact List.length_pos.mp hc.2
        · obtain ⟨br2, hm, hs, hn⟩ := hmem p h1
          exact ⟨br2, List.mem_cons_of_mem _ hm, hs, hn⟩
    · obtain ⟨tail, heq, hmem⟩ := ih changed
      refine ⟨tail, ?_, ?_⟩
      · rw [if_neg hc, heq]
      · intro p hp
        obtain ⟨br2, hm, hs, hn⟩ := hmem p hp
        exact ⟨br2, List.mem_cons_of_mem _ hm, hs, hn⟩

/-- When the already-accumulated ids together with the configured project ids
are duplicate-free — Python dict keys are distinct — a cycle's fan-out keeps
`changed_repos` duplicate-free. -/
theorem runCycle_nodup (q : Int → String → CommitResult) :
    ∀ (prs : List (Int × String)) (changed : List Int),
      (changed ++ prs.map Prod.fst).Nodup → (runCycle q changed prs).Nodup := by
  intro prs
  induction prs with
  | nil =>
    intro changed h
    simpa [runCycle] using h
  | cons pb rest ih =>
    intro changed h
    obtain ⟨pid, br⟩ := pb
    simp only [List.map_cons] at h
    simp only [runCycle]
    by_cases hc :
        ((q pid br).success && decide (0 < (q pid br).commits.length)) = true
    · rw [if_pos hc]
      apply ih
      rw [List.append_assoc]
      exact h
    · rw [if_neg hc]
      apply ih
      refine List.Nodup.sublist ?_ h
      exact List.Sublist.append_left (List.sublist_cons_self _ _) changed

/-- Unfolding of one `while True` iteration: the successor state carries the
incremented `runs` counter and the cycle's fan-out result, the optional event
is the fan-out result exactly when the emission condition fires, and a silent
iteration means the fan-out result was empty. -/
theorem stepCycle_spec (oracle : QueryOracle) (t : GitlabRepoChangedTrigger)
    (changed : List Int) :
    (stepCycle oracle t changed).1.1 =
      ⟨t.gitlab_conn_id, t.projects, t.changes_since, t.check_runs,
       t.check_interval, t.runs + 1⟩ ∧
    (stepCycle oracle t changed).1.2 =
      runCycle (oracle (t.runs + 1)) changed t.projects ∧
    ((stepCycle oracle t changed).2 = none ∨
      (stepCycle oracle t changed).2 =
        some (runCycle (oracle (t.runs + 1)) changed t.projects)) ∧
    ((stepCycle oracle t changed).2 = none →
      runCycle (oracle (t.runs + 1)) changed t.projects = []) := by
  simp only [stepCycle]
  by_cases hcond :
      (0 < (runCycle (oracle (t.runs + 1)) changed t.projects).length ∨
        t.check_runs ≤ t.runs + 1)
  · rw [if_pos hcond]
    exact ⟨rfl, rfl, Or.inr rfl, fun h => by cases h⟩
  · rw [if_neg hcond]
    refine ⟨rfl, rfl, Or.inl rfl, fun _ => ?_⟩
    push_neg at hcond
    exact List.eq_nil_of_length_eq_zero (Nat.le_zero.mp hcond.1)

/-- A session that emits its terminal event emits exactly the fan-out of its
final cycle over an empty accumulator: every earlier cycle ended silently and
therefore — by the emission condition — with an empty `changed_repos`. -/
theorem runSession_emits_final_cycle (oracle : QueryOracle) :
    ∀ (fuel : Nat) (t : GitlabRepoChangedTrigger) (ev : List Int),
      runSession oracle t [] fuel = some ev →
      ∃ c, ev = runCycle (oracle c) [] t.projects := by
  intro fuel
  induction fuel with
  | zero =>
    intro t ev h
    exact absurd h (by simp [runSession])
  | succ n ih =>
    intro t ev h
    simp only [runSession] at h
    rcases hstep : stepCycle oracle t [] with ⟨⟨t1, c1⟩, evOpt⟩
    have hspec := stepCycle_spec oracle t []
    rw [hstep] at h hspec
    cases evOpt with
    | some e =>
      have hev : e = ev := Option.some.inj h
      rcases hspec.2.2.1 with hno | hsome
      · exact Option.noConfusion hno
      · exact ⟨t.runs + 1, hev ▸ Option.some.inj hsome⟩
    | none =>
      have h1 : t1 = ⟨t.gitlab_conn_id, t.projects, t.changes_since,
          t.check_runs, t.check_interval, t.runs + 1⟩ := hspec.1
      have h2 : c1 = runCycle (oracle (t.runs + 1)) [] t.projects :=
        hspec.2.1
      have hc1 : c1 = [] := h2.trans (hspec.2.2.2 rfl)
      have hrec : runSession oracle t1 [] n = some ev := by
        rw [← hc1]
        exact h
      obtain ⟨c, hc⟩ := ih t1 ev hrec
      refine ⟨c, ?_⟩
      rw [hc, h1]

/-- A query oracle for witnesses: project 1 reports one commit, every other
project reports none. -/
def sessionOracle : QueryOracle := fun _ pid _ =>
  if pid = 1 then ⟨200, none, true, some [Json.null]⟩
  else ⟨200, none, true, some []⟩

/-- A trigger watching two projects with a cycle budget of 3. -/
def sessionTrigger : GitlabRepoChangedTrigger :=
  mkTrigger "gitlab_conn_id" [(1, "master"), (2, "dev")]
    "2024-01-01T00:00:00Z" 3 60

/-- C5: across a polling session the accumulated ChangeSet is monotone and
duplicate-free. First conjunct: one cycle only ever appends to
`changed_repos` — no identifier is ever removed. Second conjunct: for a
session over distinct project ids (Python dict keys), the terminal ChangeSet
has no duplicate identifier, and every identifier it carries was appended
because some cycle's query for a configured (project, branch) pair returned
success=true with a non-empty commit list; since every cycle before the
terminal one ends with an empty ChangeSet, each identifier was absent when
appended. -/
theorem changed_repos_monotone_nodup :
    (∀ (oracle : QueryOracle) (t : GitlabRepoChangedTrigger)
       (changed : List Int),
       ∃ tail, (stepCycle oracle t changed).1.2 = changed ++ tail) ∧
    (∀ (oracle : QueryOracle) (t : GitlabRepoChangedTrigger) (fuel : Nat)
       (ev : List Int),
       (t.projects.map Prod.fst).Nodup →
       runSession oracle t [] fuel = some ev →
       ev.Nodup ∧ ∀ pid ∈ ev, ∃ c br, (pid, br) ∈ t.projects ∧
         (oracle c pid br).success = true ∧
         (oracle c pid br).commits ≠ []) := by
  constructor
  · intro oracle t changed
    obtain ⟨tail, heq, _⟩ :=
      runCycle_extends (oracle (t.runs + 1)) t.projects changed
    exact ⟨tail, ((stepCycle_spec oracle t changed).2.1).trans heq⟩
  · intro oracle t fuel ev hN hrun
    obtain ⟨c, hev⟩ := runSession_emits_final_cycle oracle fuel t ev hrun
    constructor
    · rw [hev]
      apply runCycle_nodup
      simpa using hN
    · intro pid hp
      obtain ⟨tail, heq, hmem⟩ := runCycle_extends (oracle c) t.projects []
      rw [hev, heq] at hp
      simp only [List.nil_append] at hp
      obtain ⟨br, hm, hs, hn⟩ := hmem pid hp
      exact ⟨c, br, hm, hs, hn⟩

/-- Witness for C5: a concrete session over two distinct projects where
project 1 changes on cycle 1 terminates with the duplicate-free ChangeSet
containing exactly project 1. -/
theorem changed_repos_monotone_nodup_witness :
    (∃ tail, (stepCycle sessionOracle sessionTrigger []).1.2 = [] ++ tail) ∧
    (sessionTrigger.projects.map Prod.fst).Nodup ∧
    runSession sessionOracle sessionTrigger [] 3 = some [1] ∧
    (List.Nodup [(1 : Int)] ∧ ∀ pid ∈ [(1 : Int)], ∃ c br,
      (pid, br) ∈ sessionTrigger.projects ∧
      (sessionOracle c pid br).success = true ∧
      (sessionOracle c pid br).commits ≠ []) :=
  ⟨changed_repos_monotone_nodup.1 sessionOracle sessionTrigger [],
   by decide, by decide,
   changed_repos_monotone_nodup.2 sessionOracle sessionTrigger 3 [1]
     (by decide) (by decide)⟩
